import Mathlib

/-!
Verification of the device model of the "Node.js Export Strategies" lesson
repository.  The repository's behavioral core is the `Lamp` constructor with
its four prototype methods (given in full in the README's `lamp.js` listing)
and the two free functions `outage` and `surge` of `lib/power.js`, which mutate
a shared `Lamp` by writing its public fields directly.

Numbers are modelled as `Int` (the spec allows integer or real levels; every
scenario uses integers).  A JavaScript optional `amount` parameter is modelled
as `Option Int`: `none` is a call with the argument omitted.  The coercion
`amount = amount || 1` maps both `none` (undefined) and `some 0` (falsy zero)
to `1`.  Mutation of the shared object is modelled by state passing: each
operation returns the updated `Lamp`.
-/

/-- The `Lamp` object: `this.currentBrightness` and `this.maxBrightness`,
from the constructor `function Lamp(maxBrightness)` in the README listing. -/
structure Lamp where
  currentBrightness : Int
  maxBrightness : Int
deriving DecidableEq, Repr

/-- `new Lamp(maxBrightness)`: `this.currentBrightness = 0;
this.maxBrightness = maxBrightness;`. -/
def Lamp.new (maxBrightness : Int) : Lamp :=
  { currentBrightness := 0, maxBrightness := maxBrightness }

/-- `amount = amount || 1`: an omitted argument (undefined) and an explicit
`0` are both falsy in JavaScript, so both become `1`; any other number is
truthy and kept. -/
def defaultAmount : Option Int → Int
  | none => 1
  | some a => if a = 0 then 1 else a

/-- `Lamp.prototype.brighten`: add the (defaulted) amount, then clamp at
`maxBrightness` from above only. -/
def Lamp.brighten (l : Lamp) (amount : Option Int) : Lamp :=
  let amt := defaultAmount amount
  let c := l.currentBrightness + amt
  { l with currentBrightness := if c > l.maxBrightness then l.maxBrightness else c }

/-- `Lamp.prototype.dim`: subtract the (defaulted) amount, then clamp at `0`
from below only. -/
def Lamp.dim (l : Lamp) (amount : Option Int) : Lamp :=
  let amt := defaultAmount amount
  let c := l.currentBrightness - amt
  { l with currentBrightness := if c < 0 then 0 else c }

/-- `Lamp.prototype.turnOff`: `this.currentBrightness = 0`. -/
def Lamp.turnOff (l : Lamp) : Lamp :=
  { l with currentBrightness := 0 }

/-- `Lamp.prototype.turnOn`: `this.currentBrightness = this.maxBrightness`. -/
def Lamp.turnOn (l : Lamp) : Lamp :=
  { l with currentBrightness := l.maxBrightness }

/-- `exports.outage` of `lib/power.js`:
`device.currentBrightness = device.maxBrightness = 0` (the console message is
not part of the device state). -/
def outage (_l : Lamp) : Lamp :=
  { currentBrightness := 0, maxBrightness := 0 }

/-- `exports.surge` of `lib/power.js`: only when `device.currentBrightness > 0`
does it set `device.currentBrightness = device.maxBrightness * 10` (the console
message is not part of the device state). -/
def surge (l : Lamp) : Lamp :=
  if l.currentBrightness > 0 then
    { l with currentBrightness := l.maxBrightness * 10 }
  else
    l

/-- A call into the device's own incremental mutators, as used by the spec's
"sequences of increase/decrease calls". -/
inductive Call
  | brighten (amount : Option Int)
  | dim (amount : Option Int)
deriving DecidableEq, Repr

/-- Apply one `increase`/`decrease` call to the device. -/
def applyCall (l : Lamp) : Call → Lamp
  | .brighten a => l.brighten a
  | .dim a => l.dim a

/-- Run a finite sequence of `increase`/`decrease` calls left to right. -/
def runCalls (l : Lamp) (cs : List Call) : Lamp :=
  cs.foldl applyCall l

/-- The device invariant of the spec: `0 ≤ currentLevel ≤ maxLevel`. -/
def deviceInv (l : Lamp) : Prop :=
  0 ≤ l.currentBrightness ∧ l.currentBrightness ≤ l.maxBrightness

instance (l : Lamp) : Decidable (deviceInv l) := by
  unfold deviceInv; infer_instance

/-- A call whose explicit amount, if any, is nonnegative. -/
def callNonneg : Call → Prop
  | .brighten none => True
  | .brighten (some a) => 0 ≤ a
  | .dim none => True
  | .dim (some a) => 0 ≤ a

instance (c : Call) : Decidable (callNonneg c) := by
  cases c with
  | brighten a => cases a <;> (unfold callNonneg; infer_instance)
  | dim a => cases a <;> (unfold callNonneg; infer_instance)

/-! ## Helper lemmas -/

lemma defaultAmount_nonneg_of (a : Option Int)
    (h : ∀ x, a = some x → 0 ≤ x) : 0 ≤ defaultAmount a := by
  cases a with
  | none => simp [defaultAmount]
  | some x =>
    have hx := h x rfl
    by_cases h0 : x = 0
    · simp [defaultAmount, h0]
    · simpa [defaultAmount, h0] using hx

lemma deviceInv_applyCall (l : Lamp) (c : Call)
    (h : deviceInv l) (hc : callNonneg c) : deviceInv (applyCall l c) := by
  obtain ⟨h0, h1⟩ := h
  cases c with
  | brighten a =>
    have ha : 0 ≤ defaultAmount a := by
      apply defaultAmount_nonneg_of
      intro x hx
      cases a with
      | none => cases hx
      | some y => cases hx; exact hc
    simp only [applyCall, Lamp.brighten, deviceInv]
    split <;> constructor <;> omega
  | dim a =>
    have ha : 0 ≤ defaultAmount a := by
      apply defaultAmount_nonneg_of
      intro x hx
      cases a with
      | none => cases hx
      | some y => cases hx; exact hc
    simp only [applyCall, Lamp.dim, deviceInv]
    split <;> constructor <;> omega

lemma deviceInv_runCalls (l : Lamp) (cs : List Call)
    (h : deviceInv l) (hc : ∀ c ∈ cs, callNonneg c) :
    deviceInv (runCalls l cs) := by
  induction cs generalizing l with
  | nil => exact h
  | cons c cs ih =>
    have h1 : deviceInv (applyCall l c) :=
      deviceInv_applyCall l c h (hc c (List.mem_cons_self c cs))
    exact ih (applyCall l c) h1 (fun d hd => hc d (List.mem_cons_of_mem c hd))

/-! ## Claim theorems -/

/-- Claim C1, counterexample: the clamping invariant does not survive
arbitrary amounts.  On a fresh Device with maxLevel 10, a single
`increase(-1)` call drives `currentLevel` to `-1`: `brighten` only clamps at
the upper bound, so a negative amount escapes below `0`. -/
theorem c1_counterexample :
    ¬ deviceInv (runCalls (Lamp.new 10) [Call.brighten (some (-1))]) := by
  decide

/-- Claim C1 (amended): for every Device constructed with maxLevel ≥ 0 and
every finite sequence of increase/decrease calls whose explicit amounts are
all nonnegative, the invariant 0 ≤ currentLevel ≤ maxLevel holds after every
call in the sequence (i.e. after every prefix of the sequence). -/
theorem c1_clamping_invariant (m : Int) (hm : 0 ≤ m) (cs : List Call)
    (hc : ∀ c ∈ cs, callNonneg c) (n : Nat) :
    deviceInv (runCalls (Lamp.new m) (cs.take n)) := by
  apply deviceInv_runCalls
  · exact ⟨le_refl 0, hm⟩
  · exact fun c h => hc c (List.mem_of_mem_take h)

/-- Claim C1 witness: the amended invariant theorem applied at a concrete
device and call sequence. -/
theorem c1_clamping_invariant_witness :
    deviceInv (runCalls (Lamp.new 10)
      ([Call.brighten (some 15), Call.dim (some 5)].take 2)) :=
  c1_clamping_invariant 10 (by decide)
    [Call.brighten (some 15), Call.dim (some 5)] (by decide) 2

/-- Claim C2: when currentLevel > 0, surge sets currentLevel to
maxLevel * 10 and leaves maxLevel unchanged; when currentLevel = 0, surge
leaves the whole device state unchanged. -/
theorem c2_surge_behavior (d : Lamp) :
    (0 < d.currentBrightness →
      surge d = { d with currentBrightness := d.maxBrightness * 10 }) ∧
    (d.currentBrightness = 0 → surge d = d) := by
  constructor
  · intro h
    simp [surge, h]
  · intro h
    simp [surge, h]

/-- Claim C2 witness: Scenario D, a Device at maxLevel 10 and full
brightness surges to 100 with maxLevel still 10. -/
theorem c2_surge_behavior_witness :
    surge ⟨10, 10⟩ = ⟨100, 10⟩ :=
  (c2_surge_behavior ⟨10, 10⟩).1 (by decide)

/-- Claim C3: outage zeroes both currentLevel and maxLevel, and a subsequent
setFull (turnOn) leaves currentLevel at 0; more generally turnOn yields
currentLevel 0 on every device whose maxLevel is still 0. -/
theorem c3_outage_destructive (d : Lamp) :
    outage d = ⟨0, 0⟩ ∧ ((outage d).turnOn).currentBrightness = 0 ∧
    (∀ e : Lamp, e.maxBrightness = 0 → (e.turnOn).currentBrightness = 0) := by
  refine ⟨rfl, rfl, ?_⟩
  intro e he
  simp [Lamp.turnOn, he]

/-- Claim C3 witness: the theorem applied at Scenario C's device after
setFull, plus a device whose maxLevel is 0. -/
theorem c3_outage_destructive_witness :
    ((Lamp.turnOn ⟨5, 0⟩)).currentBrightness = 0 :=
  (c3_outage_destructive ⟨10, 10⟩).2.2 ⟨5, 0⟩ rfl

/-- Claim C4: an explicit 0 amount is coerced to the default 1, so
increase(0) equals increase(1), increase() equals increase(1), and likewise
for decrease. -/
theorem c4_zero_amount_default (l : Lamp) :
    l.brighten (some 0) = l.brighten (some 1) ∧
    l.brighten none = l.brighten (some 1) ∧
    l.dim (some 0) = l.dim (some 1) ∧
    l.dim none = l.dim (some 1) := by
  refine ⟨?_, ?_, ?_, ?_⟩ <;> simp [Lamp.brighten, Lamp.dim, defaultAmount]

/-- Claim C5: for every non-zero amount a, increase(a) sets currentLevel to
min(currentLevel + a, maxLevel) and keeps maxLevel, and the operation is
total (it is a function). -/
theorem c5_brighten_clamps (l : Lamp) (a : Int) (ha : a ≠ 0) :
    (l.brighten (some a)).currentBrightness =
      min (l.currentBrightness + a) l.maxBrightness ∧
    (l.brighten (some a)).maxBrightness = l.maxBrightness := by
  constructor
  · simp only [Lamp.brighten, defaultAmount, if_neg ha]
    split <;> omega
  · rfl

/-- Claim C5 witness: Scenario A, increase(15) on a fresh Device with
maxLevel 10 clamps currentLevel to 10. -/
theorem c5_brighten_clamps_witness :
    ((Lamp.new 10).brighten (some 15)).currentBrightness = 10 := by
  have h := (c5_brighten_clamps (Lamp.new 10) 15 (by decide)).1
  simpa using h

/-- Claim C6: for every non-zero amount a, decrease(a) sets currentLevel to
max(currentLevel - a, 0) and keeps maxLevel. -/
theorem c6_dim_clamps (l : Lamp) (a : Int) (ha : a ≠ 0) :
    (l.dim (some a)).currentBrightness =
      max (l.currentBrightness - a) 0 ∧
    (l.dim (some a)).maxBrightness = l.maxBrightness := by
  constructor
  · simp only [Lamp.dim, defaultAmount, if_neg ha]
    split <;> omega
  · rfl

/-- Claim C6 witness: Scenario B, a Device at currentLevel 3 with
decrease(5) clamps to 0. -/
theorem c6_dim_clamps_witness :
    ((⟨3, 10⟩ : Lamp).dim (some 5)).currentBrightness = 0 := by
  have h := (c6_dim_clamps ⟨3, 10⟩ 5 (by decide)).1
  simpa using h

/-- Claim C7: in every state, turnOff yields currentLevel 0 and turnOn
yields currentLevel = maxLevel. -/
theorem c7_turn_off_on (l : Lamp) :
    (l.turnOff).currentBrightness = 0 ∧
    (l.turnOn).currentBrightness = l.maxBrightness :=
  ⟨rfl, rfl⟩

/-- Claim C8: a freshly constructed Device with maxLevel ≥ 0 has
currentLevel 0 and the caller-supplied maxLevel. -/
theorem c8_fresh_device (m : Int) (_hm : 0 ≤ m) :
    (Lamp.new m).currentBrightness = 0 ∧ (Lamp.new m).maxBrightness = m :=
  ⟨rfl, rfl⟩

/-- Claim C8 witness: the theorem at the power-limits default maxLevel 20. -/
theorem c8_fresh_device_witness :
    (Lamp.new 20).currentBrightness = 0 ∧ (Lamp.new 20).maxBrightness = 20 :=
  c8_fresh_device 20 (by decide)

/-- Claim C9: none of brighten, dim, turnOff, turnOn modifies maxBrightness,
for any state and any amount; surge also preserves it, so only outage
rewrites maxBrightness. -/
theorem c9_max_frame (l : Lamp) (a : Option Int) :
    (l.brighten a).maxBrightness = l.maxBrightness ∧
    (l.dim a).maxBrightness = l.maxBrightness ∧
    (l.turnOff).maxBrightness = l.maxBrightness ∧
    (l.turnOn).maxBrightness = l.maxBrightness ∧
    (surge l).maxBrightness = l.maxBrightness := by
  refine ⟨rfl, rfl, rfl, rfl, ?_⟩
  simp only [surge]
  split <;> rfl

/-- Claim C10: surge is idempotent on device state: surging twice yields the
same state as surging once. -/
theorem c10_surge_idempotent (l : Lamp) : surge (surge l) = surge l := by
  by_cases h : l.currentBrightness > 0
  · by_cases h2 : (0 : Int) < l.maxBrightness * 10
    · simp [surge, h, h2]
    · simp [surge, h, h2]
  · simp [surge, h]
